import Mathlib

set_option maxHeartbeats 1600000

/-!   Verification development for the PVAutonomy Ops firmware OTA subsystem.

This file gives a shallow embedding, in Lean 4, of the core operations of
the `pvautonomy_ops` integration: the single-flight operation lock, the
operation tracker and runner (`operations.py`), the flash guard evaluation
(`flash_guards.py`), the artifact download/verification logic
(`artifacts.py`), the espota2 OTA wire-protocol engine
(`flash_uploader.py`), and the flash-pipeline stage machine
(`button.py`, `PVAutonomyOpsFlashButton._execute_flash`).

External effects (network reads, Home Assistant entity state, the clock)
are supplied as explicit environment values; pure computations are
translated directly from the Python source.  Machine integers are `Nat`
with explicit reductions `% 2 ^ 32` where the source performs 32-bit
arithmetic (SHA-256).
-/

namespace PVAutonomyOps

/-! ## Operation lock (`operations.py`, class `OperationLock`)

State: `asyncio.Lock` paired with `_current_operation`.  `acquire` is
non-blocking: it returns `False` immediately when `_lock.locked()`;
otherwise it acquires the lock and records the holder.  `release` only
releases when the requesting name matches the recorded holder; a mismatch
is logged and leaves the state unchanged. -/

structure LockState where
  locked : Bool
  currentOperation : Option String
deriving DecidableEq, Repr

/-- Initial lock state: a fresh `OperationLock()`. -/
def LockState.init : LockState := { locked := false, currentOperation := none }

/-- `OperationLock.acquire(operation_name)`: returns the boolean result and
the successor state.  Mirrors the source: if `self._lock.locked()` return
`False` without change, else acquire and record the holder. -/
def lockAcquire (s : LockState) (operationName : String) : Bool × LockState :=
  if s.locked then (false, s)
  else (true, { locked := true, currentOperation := some operationName })

/-- `OperationLock.release(operation_name)`: clears the holder and releases
only when `self._current_operation == operation_name`; otherwise logs a
mismatch error and changes nothing. -/
def lockRelease (s : LockState) (operationName : String) : LockState :=
  if s.currentOperation = some operationName then
    { locked := false, currentOperation := none }
  else s

/-- One call in a client-visible history of the lock. -/
inductive LockOp where
  | acq (name : String)
  | rel (name : String)
deriving DecidableEq, Repr

/-- Apply one lock call, discarding `acquire`'s boolean result. -/
def lockStep (s : LockState) (op : LockOp) : LockState :=
  match op with
  | .acq n => (lockAcquire s n).2
  | .rel n => lockRelease s n

/-- State of the lock after an arbitrary sequence of `acquire`/`release`
calls starting from a fresh lock. -/
def runLock (ops : List LockOp) : LockState :=
  ops.foldl lockStep LockState.init

/-- The holder name is only ever recorded while the underlying lock is
locked. -/
def LockState.consistent (s : LockState) : Prop :=
  s.currentOperation.isSome = true → s.locked = true

/-! ## Operation tracker (`operations.py`, class `OperationTracker`)

Timestamps are modelled as `Nat` milliseconds supplied by the caller
(`datetime.now()` is an external clock). -/

inductive OperationState where
  | idle
  | queued
  | running
  | success
  | failed
deriving DecidableEq, Repr

structure TrackerState where
  state : OperationState
  name : Option String
  started : Option Nat
  finished : Option Nat
  progress : Nat
  lastError : Option String
  lastErrorTime : Option Nat
  lastAction : Option String
  lastActionTime : Option Nat
deriving DecidableEq, Repr

/-- A fresh `OperationTracker`: all fields null / idle / zero. -/
def TrackerState.init : TrackerState :=
  { state := .idle, name := none, started := none, finished := none,
    progress := 0, lastError := none, lastErrorTime := none,
    lastAction := none, lastActionTime := none }

/-- `OperationTracker.start_operation`. -/
def startOperation (t : TrackerState) (operationName : String) (now : Nat) : TrackerState :=
  { t with state := .running, name := some operationName, started := some now,
           finished := none, progress := 0 }

/-- `OperationTracker.update_progress`: clamps to [0, 100]. -/
def updateProgress (t : TrackerState) (progress : Int) : TrackerState :=
  { t with progress := (max 0 (min 100 progress)).toNat }

/-- `OperationTracker.duration_ms` evaluated at external time `now`. -/
def trackerDurationMs (t : TrackerState) (now : Nat) : Option Nat :=
  match t.started with
  | none => none
  | some s => some (t.finished.getD now - s)

/-- `OperationTracker.complete_operation`. -/
def completeOperation (t : TrackerState) (success : Bool) (error : Option String)
    (now : Nat) : TrackerState :=
  let t1 : TrackerState :=
    { t with
      state := if success then OperationState.success else OperationState.failed,
      finished := some now,
      progress := if success then 100 else t.progress,
      lastAction := t.name,
      lastActionTime := some now }
  if success then t1
  else { t1 with lastError := error, lastErrorTime := some now }

/-! ## Operation runner (`operations.py`, class `OperationRunner`) -/

/-- A raised Python exception, reduced to its type name and message. -/
structure PyExc where
  ty : String
  msg : String
deriving DecidableEq, Repr

/-- The runner's error formatting: the exception's type name, a colon,
and its message. -/
def formatError (e : PyExc) : String := e.ty ++ ": " ++ e.msg

/-- Python string interpolation of an optional string (`None` prints as
`"None"`). -/
def pyStrOfOptString : Option String → String
  | none => "None"
  | some s => s

/-- The uniform result record returned by `OperationRunner.run`. -/
structure RunResult (A : Type) where
  success : Bool
  result : Option A
  error : Option String
  durationMs : Option Nat
deriving DecidableEq, Repr

/-- Result record plus the final tracker and lock states. -/
structure RunnerOutcome (A : Type) where
  ret : RunResult A
  tracker : TrackerState
  lock : LockState
deriving DecidableEq, Repr

/-- `OperationRunner.run(operation_name, operation_func, ...)`.

The awaited operation is modelled as `operation : Except PyExc A`: either
the value it returns or the exception it raises.  `t0` is the clock at
`start_operation`, `t1` at `complete_operation`.  The `finally:` block of
the source releases the lock on both the success and the exception path;
the translation applies `lockRelease` on both branches accordingly. -/
def runnerRun (lock : LockState) (tracker : TrackerState) (operationName : String)
    (operation : Except PyExc A) (t0 t1 : Nat) : RunnerOutcome A :=
  match lockAcquire lock operationName with
  | (false, lock1) =>
      { ret := { success := false, result := none,
                 error := some ("Operation blocked: " ++
                   pyStrOfOptString lock.currentOperation ++ " already running"),
                 durationMs := some 0 },
        tracker := tracker, lock := lock1 }
  | (true, lock1) =>
      let tracker1 := startOperation tracker operationName t0
      match operation with
      | .ok v =>
          let tracker2 := completeOperation tracker1 true none t1
          { ret := { success := true, result := some v, error := none,
                     durationMs := trackerDurationMs tracker2 t1 },
            tracker := tracker2, lock := lockRelease lock1 operationName }
      | .error ex =>
          let tracker2 := completeOperation tracker1 false (some (formatError ex)) t1
          { ret := { success := false, result := none, error := some (formatError ex),
                     durationMs := trackerDurationMs tracker2 t1 },
            tracker := tracker2, lock := lockRelease lock1 operationName }

/-! ## Flash guards (`flash_guards.py`, `check_flash_guards`)

The status sensor, the `dt_util` timestamp parse and the clock are
external; they are supplied through `GuardEnv`.  `ageMinutes` is the value
of `now - last_run_utc` in minutes, `parsedOk` whether
`dt_util.parse_datetime(gates_last_run)` returned a datetime. -/

structure GuardConfig where
  freshnessMinutes : ℚ
  strictGates : Bool
deriving DecidableEq, Repr

/-- Defaults used when the Options Flow supplies nothing:
`DEFAULT_GATES_FRESHNESS_MINUTES = 10`, `strict_gates_required = True`. -/
def defaultGuardConfig : GuardConfig := { freshnessMinutes := 10, strictGates := true }

/-- The attributes of `sensor.pvautonomy_ops_status` that the guard reads. -/
structure StatusAttrs where
  gatesOverall : Option String
  gatesLastRun : Option String
  gatesFail : List String
  gatesWarn : List String
deriving DecidableEq, Repr

structure GuardEnv where
  /-- `hass.states.get("sensor.pvautonomy_ops_status")`. -/
  sensor : Option StatusAttrs
  /-- Whether `dt_util.parse_datetime(gates_last_run)` succeeded. -/
  parsedOk : Bool
  /-- `(dt_util.utcnow() - last_run_utc)` in minutes. -/
  ageMinutes : ℚ
deriving DecidableEq, Repr

/-- `FlashGuardError(block_reason, message)` raised by the guard. -/
structure FlashGuardRaise where
  blockReason : String
  message : String
deriving DecidableEq, Repr

def joinComma (l : List String) : String := String.intercalate ", " l

/-- `check_flash_guards(hass) -> (passed, block_reason, message)`.

Translated branch by branch from the source: missing sensor raises; null
`gates_overall` / `gates_last_run` block with `gates_missing`; an
unparseable timestamp blocks with `invalid_timestamp`; stale gates block
with `gates_stale`; `fail` blocks with `gates_failed`; `warn` under strict
mode blocks with `gates_warned`, while under non-strict mode it only logs
and falls through to the final `gates_overall != "pass"` check. -/
def checkFlashGuards (cfg : GuardConfig) (env : GuardEnv) :
    Except FlashGuardRaise (Bool × String × String) :=
  match env.sensor with
  | none => .error { blockReason := "gates_missing",
                     message := "Status sensor not found - cannot validate gates" }
  | some attrs =>
    match attrs.gatesOverall with
    | none => .ok (false, "gates_missing",
        "Quality gates not run - press \x27Run Gates\x27 first")
    | some overall =>
      match attrs.gatesLastRun with
      | none => .ok (false, "gates_missing",
          "Gates timestamp missing - press \x27Run Gates\x27 first")
      | some _ =>
        if env.parsedOk = false then
          .ok (false, "invalid_timestamp", "Gates timestamp invalid format - run gates again")
        else if env.ageMinutes > cfg.freshnessMinutes then
          .ok (false, "gates_stale",
            "Gates expired (" ++ toString (Int.floor env.ageMinutes) ++ "min old, limit " ++
              toString cfg.freshnessMinutes ++ "min) - run gates again")
        else if overall = "fail" then
          .ok (false, "gates_failed",
            "Gates FAILED: " ++ joinComma attrs.gatesFail ++ " - fix issues first")
        else if overall = "warn" ∧ cfg.strictGates = true then
          .ok (false, "gates_warned",
            "Gates WARNED: " ++ joinComma attrs.gatesWarn ++ " - resolve warnings (strict mode)")
        else if overall ≠ "pass" then
          .ok (false, "gates_failed", "Gates status \x27" ++ overall ++ "\x27 not acceptable")
        else
          .ok (true, "", "Flash guards passed")

/-! ## Exceptions of the flash pipeline and the OTA engine -/

/-- The typed exceptions that flow through `_execute_flash`, reduced to
their class and message: `ArtifactError` (`artifacts.py`), `OTAError`
(`flash_uploader.py`), `ValueError`, `TypeError`, `OverflowError`
(builtins), and `FlashGuardError` (`flash_guards.py`). -/
inductive FlashExc where
  | artifactError (msg : String)
  | otaError (msg : String)
  | valueError (msg : String)
  | typeError (msg : String)
  | overflowError (msg : String)
  | flashGuardError (blockReason : String) (msg : String)
deriving DecidableEq, Repr

/-- `str(e)` for the exceptions above. -/
def FlashExc.str : FlashExc → String
  | .artifactError m => m
  | .otaError m => m
  | .valueError m => m
  | .typeError m => m
  | .overflowError m => m
  | .flashGuardError _ m => m

/-! ## espota2 protocol constants and response validation
(`flash_uploader.py`) -/

def RESPONSE_OK : Nat := 0x00
def RESPONSE_REQUEST_AUTH : Nat := 0x01
def RESPONSE_REQUEST_SHA256_AUTH : Nat := 0x02
def RESPONSE_HEADER_OK : Nat := 0x40
def RESPONSE_AUTH_OK : Nat := 0x41
def RESPONSE_UPDATE_PREPARE_OK : Nat := 0x42
def RESPONSE_BIN_MD5_OK : Nat := 0x43
def RESPONSE_RECEIVE_OK : Nat := 0x44
def RESPONSE_UPDATE_END_OK : Nat := 0x45
def RESPONSE_SUPPORTS_COMPRESSION : Nat := 0x46
def RESPONSE_CHUNK_OK : Nat := 0x47

def OTA_VERSION_2_0 : Nat := 2
def FEATURE_SUPPORTS_COMPRESSION : Nat := 0x01
def FEATURE_SUPPORTS_SHA256_AUTH : Nat := 0x02
def UPLOAD_BLOCK_SIZE : Nat := 8192

/-- `MAGIC_BYTES = bytes([0x6C, 0x26, 0xF7, 0x5C, 0x45])`. -/
def MAGIC_BYTES : List Nat := [0x6C, 0x26, 0xF7, 0x5C, 0x45]

/-- `_ERROR_MESSAGES`: the fixed table of device-reported error codes,
as the partial lookup function `_ERROR_MESSAGES.get`. -/
def errorMessages : Nat → Option String
  | 0x80 => some "Invalid magic byte"
  | 0x81 => some "Couldn\x27t prepare flash memory for update"
  | 0x82 => some "Authentication invalid (wrong OTA password?)"
  | 0x83 => some "Writing OTA data to flash memory failed"
  | 0x84 => some "Finishing update failed"
  | 0x85 => some "Please press the reset button on the ESP"
  | 0x86 => some "ESP has wrong flash size"
  | 0x87 => some "ESP does not have the requested flash size"
  | 0x88 => some "ESP8266 not enough space"
  | 0x89 => some "ESP32 OTA partition too small"
  | 0x8A => some "OTA partition not found"
  | 0x8B => some "Application MD5 mismatch"
  | 0xFF => some "Unknown error from device"
  | _ => none

/-- Uppercase hex digit. -/
def hexDigit (n : Nat) : Char :=
  if n < 10 then Char.ofNat (48 + n) else Char.ofNat (55 + n)

/-- Two-digit uppercase hex rendering of a byte value, 0x-prefixed. -/
def hexByte (b : Nat) : String :=
  "0x" ++ String.mk [hexDigit (b / 16 % 16), hexDigit (b % 16)]

/-- The message of the mismatch branch of `_check_response`. -/
def unexpectedRespMsg (description : String) (byteVal : Nat) (exp : List Nat) : String :=
  "Unexpected response for " ++ description ++ ": " ++ hexByte byteVal ++
    " (expected " ++ joinComma (exp.map hexByte) ++ ")"

/-- `_check_response(data, expected, description)`.

`expected = none` models Python `None` (skip validation); `some exp`
models an `int` (singleton list) or a `list[int]`.  The device error-code
table is consulted first; only a byte outside the table is compared with
the expected values. -/
def checkResponse (data : List Nat) (expected : Option (List Nat)) (description : String) :
    Except FlashExc Unit :=
  match expected with
  | none => .ok ()
  | some exp =>
    match data with
    | [] => .error (.otaError ("Empty response for " ++ description))
    | byteVal :: _ =>
      match errorMessages byteVal with
      | some m => .error (.otaError ("OTA error (" ++ description ++ "): " ++ m))
      | none =>
        if byteVal ∈ exp then .ok ()
        else .error (.otaError (unexpectedRespMsg description byteVal exp))

/-! ## SHA-256 (`hashlib.sha256`, FIPS 180-4)

`artifacts.verify_artifact` and the SHA-256 challenge-response of
`flash_uploader.ota_upload` call `hashlib.sha256`; the primitive is
embedded here directly.  Words are `Nat` reduced by `% 2 ^ 32`. -/

/-- Reduce to a 32-bit word. -/
def w32 (x : Nat) : Nat := x % 2 ^ 32

/-- 32-bit right rotation. -/
def rotr32 (n x : Nat) : Nat := w32 ((x >>> n) ||| (x <<< (32 - n)))

/-- 32-bit complement. -/
def not32 (x : Nat) : Nat := w32 x ^^^ (2 ^ 32 - 1)

def shaS0 (x : Nat) : Nat := rotr32 7 x ^^^ rotr32 18 x ^^^ (x >>> 3)

def shaS1 (x : Nat) : Nat := rotr32 17 x ^^^ rotr32 19 x ^^^ (x >>> 10)

def shaB0 (x : Nat) : Nat := rotr32 2 x ^^^ rotr32 13 x ^^^ rotr32 22 x

def shaB1 (x : Nat) : Nat := rotr32 6 x ^^^ rotr32 11 x ^^^ rotr32 25 x

/-- The 64 SHA-256 round constants (FIPS 180-4 section 4.2.2, in
decimal). -/
def shaK : List Nat :=
  [1116352408, 1899447441, 3049323471, 3921009573, 961987163,
   1508970993, 2453635748, 2870763221, 3624381080, 310598401,
   607225278, 1426881987, 1925078388, 2162078206, 2614888103,
   3248222580, 3835390401, 4022224774, 264347078, 604807628,
   770255983, 1249150122, 1555081692, 1996064986, 2554220882,
   2821834349, 2952996808, 3210313671, 3336571891, 3584528711,
   113926993, 338241895, 666307205, 773529912, 1294757372,
   1396182291, 1695183700, 1986661051, 2177026350, 2456956037,
   2730485921, 2820302411, 3259730800, 3345764771, 3516065817,
   3600352804, 4094571909, 275423344, 430227734, 506948616,
   659060556, 883997877, 958139571, 1322822218, 1537002063,
   1747873779, 1955562222, 2024104815, 2227730452, 2361852424,
   2428436474, 2756734187, 3204031479, 3329325298]

/-- The initial SHA-256 hash state (FIPS 180-4 section 5.3.3, in
decimal). -/
def shaH0 : List Nat :=
  [1779033703, 3144134277, 1013904242, 2773480762, 1359893119,
   2600822924, 528734635, 1541459225]

/-- Big-endian byte serialisation of `x` to `k` bytes. -/
def beBytes : Nat → Nat → List Nat
  | 0, _ => []
  | k + 1, x => x / 2 ^ (8 * k) % 256 :: beBytes k x

/-- Big-endian word from a list of bytes. -/
def beWord (bs : List Nat) : Nat := bs.foldl (fun acc b => acc * 256 + b) 0

/-- Split a list into consecutive chunks of `k` elements (the last chunk
may be shorter).  Used with `k = 64` for SHA-256 blocks and `k = 8192`
for the OTA upload loop. -/
def chunksOf (k : Nat) (l : List α) : List (List α) :=
  match l with
  | [] => []
  | x :: xs =>
    if k = 0 then [x :: xs]
    else (x :: xs).take k :: chunksOf k ((x :: xs).drop k)
termination_by l.length
decreasing_by
  simp only [List.length_drop, List.length_cons]
  omega

/-- SHA-256 padding: append `0x80`, zero bytes to 56 mod 64, and the
bit length as 8 big-endian bytes. -/
def shaPad (msg : List Nat) : List Nat :=
  msg ++ [0x80] ++ List.replicate ((119 - msg.length % 64) % 64) 0 ++
    beBytes 8 (msg.length * 8)

structure Sha8 where
  a : Nat
  b : Nat
  c : Nat
  d : Nat
  e : Nat
  f : Nat
  g : Nat
  h : Nat
deriving DecidableEq, Repr

/-- One SHA-256 round with round constant and schedule word `kw`. -/
def shaRound (st : Sha8) (kw : Nat × Nat) : Sha8 :=
  let ch := (st.e &&& st.f) ^^^ (not32 st.e &&& st.g)
  let t1 := w32 (st.h + shaB1 st.e + ch + kw.1 + kw.2)
  let maj := (st.a &&& st.b) ^^^ (st.a &&& st.c) ^^^ (st.b &&& st.c)
  let t2 := w32 (shaB0 st.a + maj)
  { a := w32 (t1 + t2), b := st.a, c := st.b, d := st.c,
    e := w32 (st.d + t1), f := st.e, g := st.f, h := st.g }

/-- Extend the message schedule by one word. -/
def shaExtendStep (ws : List Nat) : List Nat :=
  let n := ws.length
  ws ++ [w32 (shaS1 (ws.getD (n - 2) 0) + ws.getD (n - 7) 0 +
              shaS0 (ws.getD (n - 15) 0) + ws.getD (n - 16) 0)]

/-- Extend the 16 block words to the 64 schedule words. -/
def shaSchedule (ws : List Nat) : List Nat :=
  (List.range 48).foldl (fun acc _ => shaExtendStep acc) ws

/-- Compress one 64-byte block into the running hash state. -/
def shaCompressBlock (h : List Nat) (block : List Nat) : List Nat :=
  let ws := shaSchedule ((chunksOf 4 block).map beWord)
  let st0 : Sha8 :=
    { a := h.getD 0 0, b := h.getD 1 0, c := h.getD 2 0, d := h.getD 3 0,
      e := h.getD 4 0, f := h.getD 5 0, g := h.getD 6 0, h := h.getD 7 0 }
  let st := (shaK.zip ws).foldl shaRound st0
  List.map w32
    [h.getD 0 0 + st.a, h.getD 1 0 + st.b, h.getD 2 0 + st.c, h.getD 3 0 + st.d,
     h.getD 4 0 + st.e, h.getD 5 0 + st.f, h.getD 6 0 + st.g, h.getD 7 0 + st.h]

/-- The eight 32-bit words of the SHA-256 digest of a byte string. -/
def sha256Words (msg : List Nat) : List Nat :=
  (chunksOf 64 (shaPad msg)).foldl shaCompressBlock shaH0

/-- The SHA-256 digest as a single natural number (big-endian word
concatenation). -/
def sha256Nat (msg : List Nat) : Nat :=
  (sha256Words msg).foldl (fun acc w => acc * 2 ^ 32 + w) 0

/-- Lowercase hex digit, as produced by `hexdigest()`. -/
def hexDigitLower (n : Nat) : Char :=
  if n < 10 then Char.ofNat (48 + n) else Char.ofNat (87 + n)

/-- Fixed-width lowercase hex rendering (most significant digit first). -/
def natToHexAux : Nat → Nat → List Char
  | 0, _ => []
  | k + 1, x => hexDigitLower (x / 16 ^ k % 16) :: natToHexAux k x

/-- `hashlib.sha256(msg).hexdigest()`: 64 lowercase hex characters. -/
def sha256Hex (msg : List Nat) : String :=
  String.mk (natToHexAux 64 (sha256Nat msg))

/-- The SHA-256 challenge response of `ota_upload`
(`flash_uploader.py`): the hex digest of
`SHA256(password_bytes ‖ device_nonce ‖ client_nonce)`, over the byte
strings fed to `hasher.update`. -/
def computeChallenge (passwordBytes deviceNonce clientNonce : List Nat) : String :=
  sha256Hex (passwordBytes ++ deviceNonce ++ clientNonce)

/-! ## Firmware artifacts (`artifacts.py`) -/

/-- A parsed `manifest.json`.  An absent field models a key missing from
the JSON object. -/
structure Manifest where
  version : Option String
  channel : Option String
  hwFamily : Option String
  sha256 : Option String
  esphomeMin : Option String
deriving DecidableEq, Repr

/-- `FirmwareArtifact.version`: `manifest.get("version", "unknown")`. -/
def Manifest.versionGet (m : Manifest) : String := m.version.getD "unknown"

/-- `FirmwareArtifact.sha256`: `manifest.get("sha256", "")`. -/
def Manifest.sha256Get (m : Manifest) : String := m.sha256.getD ""

/-- `manifest.get(f)` presence, for the required-field check. -/
def Manifest.hasField (m : Manifest) : String → Bool
  | "version" => m.version.isSome
  | "channel" => m.channel.isSome
  | "hw_family" => m.hwFamily.isSome
  | "sha256" => m.sha256.isSome
  | _ => false

/-- A downloaded firmware artifact: the manifest plus the bytes written to
`temp_dir / "firmware.bin"` (whose on-disk size is their length). -/
structure FirmwareArtifact where
  manifest : Manifest
  firmwareData : List Nat
deriving DecidableEq, Repr

/-- The network side of one `download_artifact` run: HTTP statuses and
bodies produced by the external artifact host. -/
structure DownloadEnv where
  /-- `some e` models an `aiohttp.ClientError` raised during the session. -/
  netErr : Option String
  manifestStatus : Nat
  manifestReason : String
  /-- `.error e` models a `json.JSONDecodeError` with message `e`. -/
  manifestJson : Except String Manifest
  firmwareStatus : Nat
  firmwareReason : String
  firmwareData : List Nat
deriving Repr

def requiredFields : List String := ["version", "channel", "hw_family", "sha256"]

/-- Python `repr` of a list of strings, as interpolated into the
missing-fields message. -/
def pyListRepr (l : List String) : String :=
  "[" ++ joinComma (l.map (fun s => "\x27" ++ s ++ "\x27")) ++ "]"

/-- `artifacts.download_artifact(version, hw_family, temp_dir, channel)`.

Checks, in source order: manifest HTTP status, manifest JSON parse,
required manifest fields, the hard hardware-family match, firmware HTTP
status; returns the artifact on success.  All failures are
`ArtifactError`s. -/
def downloadArtifact (version hwFamily : String) (env : DownloadEnv) :
    Except FlashExc FirmwareArtifact :=
  match env.netErr with
  | some e => .error (.artifactError ("Network error during download: " ++ e))
  | none =>
    if env.manifestStatus ≠ 200 then
      .error (.artifactError ("Manifest download failed: " ++
        toString env.manifestStatus ++ " " ++ env.manifestReason))
    else
      match env.manifestJson with
      | .error e => .error (.artifactError ("Invalid manifest JSON: " ++ e))
      | .ok manifest =>
        let missing := requiredFields.filter (fun f => manifest.hasField f = false)
        if missing ≠ [] then
          .error (.artifactError ("Invalid manifest: missing fields " ++ pyListRepr missing))
        else if manifest.hwFamily ≠ some hwFamily then
          .error (.artifactError ("Hardware family mismatch: expected \x27" ++ hwFamily ++
            "\x27, manifest declares \x27" ++ pyStrOfOptString manifest.hwFamily ++ "\x27"))
        else if env.firmwareStatus ≠ 200 then
          .error (.artifactError ("Firmware download failed: " ++
            toString env.firmwareStatus ++ " " ++ env.firmwareReason))
        else
          .ok { manifest := manifest, firmwareData := env.firmwareData }

/-- `artifacts.verify_artifact(artifact)`: recompute the SHA-256 of the
firmware file and compare with the manifest's declared checksum.
`readOk = false` models an `OSError` while reading the file. -/
def verifyArtifact (readOk : Bool) (readErrMsg : String) (a : FirmwareArtifact) :
    Except FlashExc Bool :=
  if readOk = false then
    .error (.artifactError ("Cannot read firmware file: " ++ readErrMsg))
  else if sha256Hex a.firmwareData ≠ a.manifest.sha256Get then
    .error (.artifactError "Firmware integrity check failed: SHA256 mismatch")
  else .ok true

/-- `artifacts.get_latest_version`: the MVP returns the hardcoded
version "1.0.4" for every hardware family and channel. -/
def getLatestVersion (hwFamily channel : String) : String := "1.0.4"

/-! ## The `download_artifact` call of `_execute_flash`
(`button.py`, lines 405-412)

The call passes keyword arguments `owner=` and `repo=`, but the
signature of `artifacts.download_artifact` is
`(version, hw_family, temp_dir, channel="stable")` with no such
parameters and no `**kwargs`.  Binding Python keyword arguments against
a parameter list without `**kwargs` raises `TypeError` when a keyword is
not a parameter name; `kwargsBind` models that binding check. -/

/-- A Python call binds iff every keyword argument names a parameter. -/
def kwargsBind (params kwargs : List String) : Bool :=
  kwargs.all (fun k => params.contains k)

/-- The parameter names of `artifacts.download_artifact`. -/
def downloadArtifactParams : List String := ["version", "hw_family", "temp_dir", "channel"]

/-- The keyword arguments of the `download_artifact(...)` call inside
`_execute_flash`. -/
def executeFlashDownloadCallKwargs : List String :=
  ["version", "hw_family", "temp_dir", "channel", "owner", "repo"]

/-- The `TypeError` message CPython produces for the first unexpected
keyword. -/
def downloadCallTypeErrorMsg : String :=
  "download_artifact() got an unexpected keyword argument \x27owner\x27"

/-! ## OTA upload engine (`flash_uploader.py`, `ota_upload`)

The engine is modelled as a computation in
`ExceptT FlashExc (StateM (List OtaMsg))`: the state accumulates the I/O
transcript (bytes written to the socket, reads performed, progress
callbacks), and the `Except` layer carries `OTAError`s.  Device
responses are supplied by `OtaEnv`.  `gzip.compress(-, compresslevel=9)`
and `hashlib.md5(-).hexdigest().encode("ascii")` are abstract byte-level
primitives passed as the `gzipCompress9` and `md5HexAscii` arguments. -/

/-- One entry of the engine's I/O transcript. -/
inductive OtaMsg where
  | sent (data : List Nat)
  | recvd (n : Nat) (description : String)
  | prog (pct : Nat)
deriving DecidableEq, Repr

/-- Device-side responses consumed by one `ota_upload` run. -/
structure OtaEnv where
  /-- Whether `asyncio.open_connection` succeeds. -/
  connectOk : Bool
  /-- Message of the `OSError` on connect failure. -/
  connectErrMsg : String
  /-- The two bytes read for "version". -/
  versionResp : List Nat
  featuresResp : Nat
  authType : Nat
  /-- The 64 nonce bytes sent by the device for SHA-256 auth. -/
  deviceNonce : List Nat
  authResultResp : Nat
  prepResp : Nat
  md5Resp : Nat
  /-- Acknowledgement byte for the i-th uploaded chunk. -/
  chunkAck : Nat → Nat
  recvResp : Nat
  endResp : Nat
  /-- `secrets.token_hex(32)`: the 64 ASCII bytes of the random client
  nonce (externally random). -/
  clientNonce : List Nat

/-- ASCII bytes of a string (all strings sent by the engine are ASCII). -/
def strBytes (s : String) : List Nat := s.data.map Char.toNat

/-- The chunked-transfer loop of `ota_upload`: send one
`UPLOAD_BLOCK_SIZE` slice, await exactly one acknowledgement byte,
validate it against `RESPONSE_CHUNK_OK`, report progress at 5-point
granularity, repeat.  Returns the transcript of the loop and its
outcome; `i` is the chunk index, `offset` the bytes sent so far,
`lastPct` the `last_reported_pct` accumulator (initially -1). -/
def otaChunkLoop (env : OtaEnv) (uploadSize : Nat) :
    List Nat → Nat → Nat → Int → List OtaMsg × Except FlashExc Unit
  | [], _, _, _ => ([], .ok ())
  | x :: xs, i, offset, lastPct =>
    let chunk := (x :: xs).take UPLOAD_BLOCK_SIZE
    let offset2 := offset + chunk.length
    let tHere := [OtaMsg.sent chunk, OtaMsg.recvd 1 ("chunk@" ++ toString offset2)]
    match checkResponse [env.chunkAck i] (some [RESPONSE_CHUNK_OK]) ("chunk@" ++ toString offset2) with
    | .error e => (tHere, .error e)
    | .ok _ =>
      let pct : Int := (offset2 * 100 : Int) / uploadSize
      if lastPct + 5 ≤ pct then
        let rest := otaChunkLoop env uploadSize ((x :: xs).drop UPLOAD_BLOCK_SIZE) (i + 1) offset2 pct
        (tHere ++ [OtaMsg.prog pct.toNat] ++ rest.1, rest.2)
      else
        let rest := otaChunkLoop env uploadSize ((x :: xs).drop UPLOAD_BLOCK_SIZE) (i + 1) offset2 lastPct
        (tHere ++ rest.1, rest.2)
termination_by r _ _ _ => r.length
decreasing_by
  all_goals simp only [List.length_drop, List.length_cons, UPLOAD_BLOCK_SIZE]
  all_goals omega

/-- `ota_upload(hass, host=..., password=..., firmware_path=...)`.

`password` is the OTA password's UTF-8 bytes (`None` = no password
resolvable); `fileContents` the firmware file bytes.  The result pairs
the I/O transcript (kept on the error path too) with the outcome,
translated check by check from the source: empty-file guard, connect,
magic/version handshake, feature negotiation with the compression
decision, the auth-mode dispatch, the 4-byte big-endian size field, the
MD5 integrity field, the acknowledged chunk loop, and the two final
acknowledgements followed by the final OK byte. -/
def otaUpload (gzipCompress9 md5HexAscii : List Nat → List Nat)
    (password : Option (List Nat)) (fileContents : List Nat) (env : OtaEnv) :
    List OtaMsg × Except FlashExc Unit :=
  if fileContents.length = 0 then ([], .error (.otaError "Firmware file is empty"))
  else if env.connectOk = false then
    ([], .error (.otaError ("Network error during OTA upload: " ++ env.connectErrMsg)))
  else
    let t0 := [OtaMsg.sent MAGIC_BYTES, OtaMsg.recvd 2 "version"]
    match checkResponse (env.versionResp.take 1) (some [RESPONSE_OK]) "magic response" with
    | .error e => (t0, .error e)
    | .ok _ =>
      if env.versionResp.getD 1 0 ≠ OTA_VERSION_2_0 then
        (t0, .error (.otaError ("Unsupported OTA version: " ++
          toString (env.versionResp.getD 1 0) ++ " (require v2.0)")))
      else
        let t1 := t0 ++ [OtaMsg.sent [FEATURE_SUPPORTS_COMPRESSION ||| FEATURE_SUPPORTS_SHA256_AUTH],
                         OtaMsg.recvd 1 "features"]
        let useCompression := env.featuresResp = RESPONSE_SUPPORTS_COMPRESSION
        let uploadData := if useCompression then gzipCompress9 fileContents else fileContents
        let t2 := t1 ++ [OtaMsg.recvd 1 "auth type"]
        let auth : List OtaMsg × Except FlashExc Unit :=
          if env.authType = RESPONSE_AUTH_OK then (t2, .ok ())
          else if env.authType = RESPONSE_REQUEST_SHA256_AUTH then
            match password with
            | none => (t2, .error (.otaError "Device requires OTA password, but none provided"))
            | some pw =>
              let t3 := t2 ++ [OtaMsg.recvd 64 "SHA256 nonce", OtaMsg.sent env.clientNonce,
                OtaMsg.sent (strBytes (computeChallenge pw env.deviceNonce env.clientNonce)),
                OtaMsg.recvd 1 "auth result"]
              (t3, checkResponse [env.authResultResp] (some [RESPONSE_AUTH_OK]) "SHA256 authentication")
          else if env.authType = RESPONSE_REQUEST_AUTH then
            (t2, .error (.otaError "Device requested MD5 auth — refused (SHA256 required per policy)"))
          else
            (t2, .error (.otaError ("Unknown auth type from device: " ++ hexByte env.authType)))
        match auth.2 with
        | .error e => (auth.1, .error e)
        | .ok _ =>
          let uploadSize := uploadData.length
          if 2 ^ 32 ≤ uploadSize then
            (auth.1, .error (.overflowError "int too big to convert"))
          else
            let t4 := auth.1 ++ [OtaMsg.sent (beBytes 4 uploadSize), OtaMsg.recvd 1 "update prepare"]
            match checkResponse [env.prepResp] (some [RESPONSE_UPDATE_PREPARE_OK]) "update prepare" with
            | .error e => (t4, .error e)
            | .ok _ =>
              let t5 := t4 ++ [OtaMsg.sent (md5HexAscii uploadData), OtaMsg.recvd 1 "binary MD5"]
              match checkResponse [env.md5Resp] (some [RESPONSE_BIN_MD5_OK]) "binary MD5 check" with
              | .error e => (t5, .error e)
              | .ok _ =>
                let loop := otaChunkLoop env uploadSize uploadData 0 0 (-1)
                match loop.2 with
                | .error e => (t5 ++ loop.1, .error e)
                | .ok _ =>
                  let t6 := t5 ++ loop.1 ++ [OtaMsg.recvd 1 "receive OK"]
                  match checkResponse [env.recvResp] (some [RESPONSE_RECEIVE_OK]) "receive complete" with
                  | .error e => (t6, .error e)
                  | .ok _ =>
                    let t7 := t6 ++ [OtaMsg.recvd 1 "update end"]
                    match checkResponse [env.endResp] (some [RESPONSE_UPDATE_END_OK]) "update end" with
                    | .error e => (t7, .error e)
                    | .ok _ => (t7 ++ [OtaMsg.sent [RESPONSE_OK]], .ok ())

/-- The payload of the transfer phase: the gzip-compressed image iff the
device's feature response equals `RESPONSE_SUPPORTS_COMPRESSION`, else
the raw file contents. -/
def otaPayload (gzipCompress9 : List Nat → List Nat) (fileContents : List Nat)
    (env : OtaEnv) : List Nat :=
  if env.featuresResp = RESPONSE_SUPPORTS_COMPRESSION then gzipCompress9 fileContents
  else fileContents

/-- The byte strings written to the socket, in order. -/
def sentOf (t : List OtaMsg) : List (List Nat) :=
  t.filterMap (fun x => match x with
    | .sent d => some d
    | _ => none)

/-! ## Flash pipeline (`button.py`, `PVAutonomyOpsFlashButton._execute_flash`)

The stage machine is modelled as a pure function from the run-time
configuration and an environment of external-collaborator outcomes to
the list of emitted `pvautonomy_ops_flash_stage` events (with the call
markers for `verify_artifact` and `ota_upload` interleaved) and the
returned result or raised exception.

Exception handling follows the source exactly: the inner
`try` around the temp-directory block catches `ArtifactError` and
`OTAError` (each emitting a `failed`/0 stage event and re-raising), its
`finally` removes the temp directory, and the outer
`except Exception` emits one more `failed`/0 stage event with
`str(e)` before re-raising. -/

/-- The payload of one `pvautonomy_ops_flash_stage` event: stage name,
progress, `flash_state["version"]` and `flash_state["error"]` at emit
time.  (`target_device` is the constant `device_id` argument and is
omitted.) -/
structure StageEvent where
  stage : String
  progress : Nat
  version : Option String
  error : Option String
deriving DecidableEq, Repr

/-- A pipeline observation: a stage event, or an invocation of
`verify_artifact` / `ota_upload`. -/
inductive FlashEv where
  | ev (e : StageEvent)
  | callVerify
  | callUpload
deriving DecidableEq, Repr

/-- Runtime configuration read from `hass.data[DOMAIN]["config"]`, with
the source's defaults. -/
structure FlashCfg where
  hwFamily : String := "edge101"
  channel : String := "stable"
  minSizeKb : Nat := 300
deriving DecidableEq, Repr

/-- The dict returned by `_execute_flash` on success. -/
structure FlashResult where
  result : String
  deviceId : String
  firmwareVersion : String
  flashDurationSec : Nat
  stage : String
deriving DecidableEq, Repr

/-- Which monitoring entity the postcheck found (uptime sensor
preferred, then health binary sensor, then wifi sensor). -/
inductive MonitorKind where
  | uptime
  | health
  | wifi
deriving DecidableEq, Repr

/-- One poll of the monitoring entity: whether `hass.states.get`
returned a state, whether that state is available, and the parsed float
value for uptime sensors (`none` models an unparseable state). -/
structure Reading where
  present : Bool
  avail : Bool
  uptimeVal : Option ℚ
deriving DecidableEq, Repr

/-- External-collaborator outcomes for the post-download part of the
pipeline (verification read, IP resolution, secret lookup, the OTA
engine, and the postcheck monitoring entity). -/
structure AfterEnv where
  verifyReadOk : Bool
  verifyReadErrMsg : String
  deviceIp : Option String
  otaPassword : Option String
  uploadOutcome : Except FlashExc Unit
  /-- The percentages the OTA engine reported to the progress callback. -/
  uploadProgress : List Nat
  monitorKind : Option MonitorKind
  /-- `float(init_state.state)` when the initial state was available and
  parseable. -/
  initialUptimeRaw : Option ℚ
  /-- The monitor state at a given elapsed time. -/
  readings : Nat → Reading

/-- `85 + int((elapsed / max_wait) * 10)` clamped to 95. -/
def pollPct (elapsed : Nat) : Nat := min (85 + elapsed * 10 / 90) 95

/-- The message of the minimum-size gate `ValueError`. -/
def sizeGateMsg (firmwareSize minSizeBytes minSizeKb : Nat) : String :=
  "Firmware too small: " ++ toString firmwareSize ++ " bytes (minimum " ++
    toString minSizeBytes ++ " bytes / " ++ toString minSizeKb ++ " KB)"

/-- The postcheck polling loop (max 90 s in 2 s steps = 45 iterations).

Each iteration advances `elapsed`, emits a `postcheck` progress event,
then examines the monitor state: a missing state skips the rest; an
unavailable state latches `offline_detected`; an available uptime value
below the initial reading confirms the reboot and exits; availability
after `offline_detected` likewise exits.  Exhausting the window merely
logs a warning.  `rem` counts remaining iterations. -/
def postcheckLoop (readings : Nat → Reading) (kind : MonitorKind)
    (initialUptime : Option ℚ) (ver : Option String) :
    Nat → Nat → Bool → List FlashEv
  | 0, _, _ => []
  | rem + 1, elapsed0, offline =>
    let elapsed := elapsed0 + 2
    let e := FlashEv.ev { stage := "postcheck", progress := pollPct elapsed,
                          version := ver, error := none }
    let r := readings elapsed
    if r.present = false then
      e :: postcheckLoop readings kind initialUptime ver rem elapsed offline
    else
      let offline2 := offline || !r.avail
      let uptimeBreak : Bool :=
        match kind, initialUptime, r.uptimeVal with
        | .uptime, some u, some v => r.avail && decide (v < u)
        | _, _, _ => false
      if uptimeBreak then [e]
      else if offline2 && r.avail then [e]
      else e :: postcheckLoop readings kind initialUptime ver rem elapsed offline2

/-- The pipeline from the point where `download_artifact` has returned
an artifact (`button.py` lines 414-597): minimum-size gate, checksum
verification, OTA upload with progress mapping, postcheck, completion.
Raised exceptions are returned before the inner/outer handlers run;
`executeFlash` threads them through the handlers. -/
def flashAfterDownload (cfg : FlashCfg) (env : AfterEnv) (deviceId : String)
    (artifact : FirmwareArtifact) : List FlashEv × Except FlashExc FlashResult :=
  let ver := some artifact.manifest.versionGet
  let firmwareSize := artifact.firmwareData.length
  let minSizeBytes := cfg.minSizeKb * 1024
  if firmwareSize < minSizeBytes then
    let msg := sizeGateMsg firmwareSize minSizeBytes cfg.minSizeKb
    ([.ev { stage := "failed", progress := 0, version := ver, error := some msg }],
     .error (.valueError msg))
  else
    let evVerify := FlashEv.ev { stage := "verify", progress := 50, version := ver, error := none }
    match verifyArtifact env.verifyReadOk env.verifyReadErrMsg artifact with
    | .error e => ([evVerify, .callVerify], .error e)
    | .ok _ =>
      let evUpload := FlashEv.ev { stage := "upload", progress := 30, version := ver, error := none }
      match env.deviceIp with
      | none =>
        let msg := "Cannot resolve IP for device: " ++ deviceId
        ([evVerify, .callVerify, evUpload,
          .ev { stage := "failed", progress := 0, version := ver, error := some msg }],
         .error (.otaError msg))
      | some _ =>
        -- a missing OTA password only logs a warning; the upload proceeds
        let progEvs := env.uploadProgress.map (fun pct =>
          FlashEv.ev { stage := "upload", progress := 30 + pct / 2, version := ver, error := none })
        match env.uploadOutcome with
        | .error e =>
          ([evVerify, .callVerify, evUpload, .callUpload] ++ progEvs, .error e)
        | .ok _ =>
          let evPost := FlashEv.ev { stage := "postcheck", progress := 85, version := ver, error := none }
          let pollEvs :=
            match env.monitorKind with
            | none => []   -- no monitoring sensor: fixed 15 s fallback wait
            | some kind =>
              let initU := if kind = MonitorKind.uptime then env.initialUptimeRaw else none
              postcheckLoop env.readings kind initU ver 45 0 false
          -- `update_stage("complete", 100)`; the micro-regression guard
          -- then re-checks `flash_state["stage"]`, which this line just
          -- set to "complete", so no second event fires
          let evComplete := FlashEv.ev { stage := "complete", progress := 100, version := ver, error := none }
          ([evVerify, .callVerify, evUpload, .callUpload] ++ progEvs ++ [evPost] ++
             pollEvs ++ [evComplete],
           .ok { result := "success", deviceId := deviceId,
                 firmwareVersion := artifact.manifest.versionGet,
                 flashDurationSec := 0, stage := "complete" })

/-- External-collaborator outcomes for one whole `_execute_flash` run. -/
structure FlashEnv where
  guardOutcome : Except FlashGuardRaise (Bool × String × String)
  download : DownloadEnv
  after : AfterEnv

/-- The `failed`/0 stage events the inner `except ArtifactError` /
`except OTAError` handlers emit for an exception, with the
`flash_state["error"]` strings they set. -/
def innerHandlerEvs (e : FlashExc) (ver : Option String) : List FlashEv :=
  match e with
  | .artifactError m =>
    [.ev { stage := "failed", progress := 0, version := ver, error := some ("Artifact error: " ++ m) }]
  | .otaError m =>
    [.ev { stage := "failed", progress := 0, version := ver, error := some ("OTA upload error: " ++ m) }]
  | _ => []

/-- `PVAutonomyOpsFlashButton._execute_flash(device_id)`: the full stage
machine, including the `download_artifact(...)` call with the
`owner=`/`repo=` keyword arguments (which, against the actual signature
of `artifacts.download_artifact`, fails Python keyword binding). -/
def executeFlash (cfg : FlashCfg) (env : FlashEnv) (deviceId : String) :
    List FlashEv × Except FlashExc FlashResult :=
  let evInit := FlashEv.ev { stage := "init", progress := 0, version := none, error := none }
  let evPre := FlashEv.ev { stage := "preflight", progress := 10, version := none, error := none }
  match env.guardOutcome with
  | .error g =>
    -- `FlashGuardError` propagates straight to the outer handler
    ([evInit, evPre, .ev { stage := "failed", progress := 0, version := none, error := some g.message }],
     .error (.flashGuardError g.blockReason g.message))
  | .ok (passed, _reason, guardMessage) =>
    if passed = false then
      let msg := "Preflight failed: " ++ guardMessage
      -- the raise site emits `failed`/0, then the outer handler repeats it
      ([evInit, evPre,
        .ev { stage := "failed", progress := 0, version := none, error := some msg },
        .ev { stage := "failed", progress := 0, version := none, error := some msg }],
       .error (.valueError msg))
    else
      let evDl := FlashEv.ev { stage := "download", progress := 30, version := none, error := none }
      let firmwareVersion := getLatestVersion cfg.hwFamily cfg.channel
      let dlResult : Except FlashExc FirmwareArtifact :=
        if kwargsBind downloadArtifactParams executeFlashDownloadCallKwargs then
          downloadArtifact firmwareVersion cfg.hwFamily env.download
        else .error (.typeError downloadCallTypeErrorMsg)
      match dlResult with
      | .error e =>
        ([evInit, evPre, evDl] ++ innerHandlerEvs e none ++
           [.ev { stage := "failed", progress := 0, version := none, error := some e.str }],
         .error e)
      | .ok artifact =>
        let ver := some artifact.manifest.versionGet
        let seg := flashAfterDownload cfg env.after deviceId artifact
        match seg.2 with
        | .ok r => ([evInit, evPre, evDl] ++ seg.1, .ok r)
        | .error e =>
          ([evInit, evPre, evDl] ++ seg.1 ++ innerHandlerEvs e ver ++
             [.ev { stage := "failed", progress := 0, version := ver, error := some e.str }],
           .error e)

/-! ## Theorems -/

/-- `lockStep` preserves the lock/holder consistency invariant. -/
theorem lockStep_consistent (s : LockState) (op : LockOp) (h : s.consistent) :
    (lockStep s op).consistent := by
  cases op with
  | acq n =>
    simp only [lockStep, lockAcquire]
    split
    · exact h
    · intro _
      rfl
  | rel n =>
    simp only [lockStep, lockRelease]
    split
    · intro hc
      simp [LockState.consistent] at hc
    · exact h

/-- Folding any call sequence from a consistent state stays consistent. -/
theorem foldl_lockStep_consistent (ops : List LockOp) (s : LockState) (h : s.consistent) :
    (ops.foldl lockStep s).consistent := by
  induction ops generalizing s with
  | nil => exact h
  | cons op rest ih => exact ih _ (lockStep_consistent s op h)

/-- Every state reachable from a fresh lock is consistent. -/
theorem runLock_consistent (ops : List LockOp) : (runLock ops).consistent := by
  unfold runLock
  exact foldl_lockStep_consistent ops LockState.init (fun h => by simp [LockState.init] at h)

/-- C2: for every sequence of `acquire`/`release` calls on one
`OperationLock`, at most one name holds the lock at any instant, and an
`acquire` issued while some name holds the lock returns `False`
immediately and leaves both the lock and the recorded holder unchanged. -/
theorem lock_single_holder (ops : List LockOp) (name holder₁ holder₂ : String)
    (h1 : (runLock ops).currentOperation = some holder₁) :
    ((runLock ops).currentOperation = some holder₂ → holder₁ = holder₂) ∧
    (lockAcquire (runLock ops) name).1 = false ∧
    (lockAcquire (runLock ops) name).2 = runLock ops := by
  have hlocked : (runLock ops).locked = true := by
    apply runLock_consistent ops
    simp [h1]
  refine ⟨fun h2 => ?_, ?_, ?_⟩
  · rw [h1] at h2
    exact Option.some_injective _ h2
  · simp [lockAcquire, hlocked]
  · simp [lockAcquire, hlocked]

/-- Witness for C2 at a concrete history: after `acquire("flash")`, the
holder is `"flash"`, and `acquire("restart")` returns `False` leaving
the state unchanged. -/
theorem lock_single_holder_witness :
    (runLock [LockOp.acq "flash"]).currentOperation = some "flash" ∧
    (lockAcquire (runLock [LockOp.acq "flash"]) "restart").1 = false ∧
    (lockAcquire (runLock [LockOp.acq "flash"]) "restart").2 = runLock [LockOp.acq "flash"] :=
  ⟨rfl, (lock_single_holder [LockOp.acq "flash"] "restart" "flash" "flash" rfl).2⟩

/-- C3: `OperationRunner.run` never propagates an exception of the
operation: when the operation raises, the returned record has
`success = False` and the formatted `"<Type>: <message>"` error string,
the tracker is marked failed, and on both the success and the failure
path the cleanup block releases the lock for `operation_name`. -/
theorem runner_swallows_and_releases {A : Type} (lock : LockState) (tracker : TrackerState)
    (operationName : String) (operation : Except PyExc A) (t0 t1 : Nat)
    (hfree : lock.locked = false) :
    (∀ e, operation = .error e →
      (runnerRun lock tracker operationName operation t0 t1).ret.success = false ∧
      (runnerRun lock tracker operationName operation t0 t1).ret.error = some (formatError e) ∧
      (runnerRun lock tracker operationName operation t0 t1).tracker.state = OperationState.failed) ∧
    (runnerRun lock tracker operationName operation t0 t1).lock.locked = false ∧
    (runnerRun lock tracker operationName operation t0 t1).lock.currentOperation = none := by
  cases operation with
  | ok v =>
    refine ⟨fun e he => (by cases he), ?_, ?_⟩ <;>
      simp [runnerRun, lockAcquire, lockRelease, hfree]
  | error e =>
    refine ⟨fun e' he' => ?_, ?_, ?_⟩ <;>
      simp_all [runnerRun, lockAcquire, lockRelease, startOperation, completeOperation, hfree]

/-- Witness for C3: a concrete raising operation
(`ValueError("boom")`) on a fresh lock and tracker. -/
theorem runner_swallows_and_releases_witness :
    ((runnerRun LockState.init TrackerState.init "flash_firmware"
        (Except.error ⟨"ValueError", "boom"⟩ : Except PyExc Unit) 0 5).ret.success = false ∧
     (runnerRun LockState.init TrackerState.init "flash_firmware"
        (Except.error ⟨"ValueError", "boom"⟩ : Except PyExc Unit) 0 5).ret.error =
          some (formatError ⟨"ValueError", "boom"⟩) ∧
     (runnerRun LockState.init TrackerState.init "flash_firmware"
        (Except.error ⟨"ValueError", "boom"⟩ : Except PyExc Unit) 0 5).tracker.state =
          OperationState.failed) ∧
    (runnerRun LockState.init TrackerState.init "flash_firmware"
      (Except.error ⟨"ValueError", "boom"⟩ : Except PyExc Unit) 0 5).lock.locked = false :=
  have h := runner_swallows_and_releases LockState.init TrackerState.init "flash_firmware"
    (Except.error ⟨"ValueError", "boom"⟩ : Except PyExc Unit) 0 5 rfl
  ⟨h.1 _ rfl, h.2.1⟩

/-- The domain of `_ERROR_MESSAGES` is exactly 0x80-0x8B plus 0xFF. -/
theorem errorMessages_isSome_iff (c : Nat) :
    (errorMessages c).isSome = true ↔ ((0x80 ≤ c ∧ c ≤ 0x8B) ∨ c = 0xFF) := by
  unfold errorMessages
  split <;> first | (constructor <;> intro h <;> first | rfl | omega) | skip
  rename_i h1 h2 h3 h4 h5 h6 h7 h8 h9 h10 h11 h12 h13
  constructor
  · intro h
    exact Bool.noConfusion h
  · intro h
    exfalso
    simp only [imp_false] at h1 h2 h3 h4 h5 h6 h7 h8 h9 h10 h11 h12 h13
    omega

/-- C5: the device error-code table of `_check_response` consists exactly
of 0x80-0x8B and 0xFF, and any response byte in the table raises the
table's descriptive `OTAError` immediately, regardless of the expected
values — even when the byte would also fail (or pass) the expected-value
comparison, the table error is the one produced. -/
theorem error_table_supersedes (b : Nat) (rest exp : List Nat) (description : String)
    (hb : (0x80 ≤ b ∧ b ≤ 0x8B) ∨ b = 0xFF) :
    (∃ m, errorMessages b = some m ∧
      checkResponse (b :: rest) (some exp) description =
        .error (.otaError ("OTA error (" ++ description ++ "): " ++ m))) ∧
    (∀ c : Nat, (errorMessages c).isSome = true ↔ ((0x80 ≤ c ∧ c ≤ 0x8B) ∨ c = 0xFF)) := by
  refine ⟨?_, errorMessages_isSome_iff⟩
  have hm : ∃ m, errorMessages b = some m := by
    rcases hb with ⟨hlo, hhi⟩ | hff
    · interval_cases b <;> exact ⟨_, rfl⟩
    · exact ⟨"Unknown error from device", by subst hff; rfl⟩
  obtain ⟨m, hm⟩ := hm
  exact ⟨m, hm, by simp [checkResponse, hm]⟩

/-- Witness for C5: byte 0x82 with expected value 0x41 produces the
authentication-invalid table error, not the mismatch error. -/
theorem error_table_supersedes_witness :
    (∃ m, errorMessages 0x82 = some m ∧
      checkResponse [0x82] (some [0x41]) "SHA256 authentication" =
        .error (.otaError ("OTA error (" ++ "SHA256 authentication" ++ "): " ++ m))) ∧
    (∀ c : Nat, (errorMessages c).isSome = true ↔ ((0x80 ≤ c ∧ c ≤ 0x8B) ∨ c = 0xFF)) :=
  error_table_supersedes 0x82 [] [0x41] "SHA256 authentication" (Or.inl (by omega))

/-- C10: with the status sensor present, gates present and fresh, and
`gates_overall = "warn"`, `check_flash_guards` blocks even when
`strict_gates_required` is `False`: the non-strict warn branch only
logs, and the final `gates_overall != "pass"` check returns
`(False, "gates_failed", ...)` — not `"gates_warned"`. -/
theorem warn_blocks_even_nonstrict (cfg : GuardConfig) (attrs : StatusAttrs) (env : GuardEnv)
    (lastRun : String)
    (hs : env.sensor = some attrs)
    (hov : attrs.gatesOverall = some "warn")
    (hlr : attrs.gatesLastRun = some lastRun)
    (hp : env.parsedOk = true)
    (hfresh : env.ageMinutes ≤ cfg.freshnessMinutes)
    (hstrict : cfg.strictGates = false) :
    checkFlashGuards cfg env =
      .ok (false, "gates_failed", "Gates status \x27warn\x27 not acceptable") := by
  have hnotstale : ¬(env.ageMinutes > cfg.freshnessMinutes) := not_lt.mpr hfresh
  simp [checkFlashGuards, hs, hov, hlr, hp, hnotstale, hstrict]

/-- Witness for C10: concrete fresh warn gates with the strict flag off. -/
theorem warn_blocks_even_nonstrict_witness :
    checkFlashGuards { freshnessMinutes := 10, strictGates := false }
        { sensor := some { gatesOverall := some "warn", gatesLastRun := some "2025-01-01T00:00:00+00:00",
                           gatesFail := [], gatesWarn := ["gate_battery"] },
          parsedOk := true, ageMinutes := 3 } =
      .ok (false, "gates_failed", "Gates status \x27warn\x27 not acceptable") :=
  warn_blocks_even_nonstrict { freshnessMinutes := 10, strictGates := false }
    { gatesOverall := some "warn", gatesLastRun := some "2025-01-01T00:00:00+00:00",
      gatesFail := [], gatesWarn := ["gate_battery"] }
    { sensor := some { gatesOverall := some "warn", gatesLastRun := some "2025-01-01T00:00:00+00:00",
                       gatesFail := [], gatesWarn := ["gate_battery"] },
      parsedOk := true, ageMinutes := 3 }
    "2025-01-01T00:00:00+00:00" rfl rfl rfl rfl (by norm_num) rfl

/-- C4: when the downloaded binary is strictly smaller than
`flash_min_firmware_size_kb × 1024` (default 300 KB), the pipeline
raises the size-gate `ValueError`, emits exactly the `failed`/0 stage
event, and never calls `verify_artifact`: no checksum verification is
attempted on an undersized binary. -/
theorem size_gate_before_verify (cfg : FlashCfg) (env : AfterEnv) (deviceId : String)
    (artifact : FirmwareArtifact)
    (hsize : artifact.firmwareData.length < cfg.minSizeKb * 1024) :
    (flashAfterDownload cfg env deviceId artifact).2 =
      .error (.valueError (sizeGateMsg artifact.firmwareData.length
        (cfg.minSizeKb * 1024) cfg.minSizeKb)) ∧
    (flashAfterDownload cfg env deviceId artifact).1 =
      [.ev { stage := "failed", progress := 0, version := some artifact.manifest.versionGet,
             error := some (sizeGateMsg artifact.firmwareData.length
               (cfg.minSizeKb * 1024) cfg.minSizeKb) }] ∧
    FlashEv.callVerify ∉ (flashAfterDownload cfg env deviceId artifact).1 ∧
    FlashEv.callUpload ∉ (flashAfterDownload cfg env deviceId artifact).1 ∧
    ({ } : FlashCfg).minSizeKb = 300 := by
  refine ⟨?_, ?_, ?_, ?_, rfl⟩ <;> simp [flashAfterDownload, hsize]

/-- A degenerate collaborator environment for witnesses of the
post-download pipeline segment. -/
def trivialAfterEnv : AfterEnv :=
  { verifyReadOk := true, verifyReadErrMsg := "", deviceIp := none, otaPassword := none,
    uploadOutcome := .ok (), uploadProgress := [], monitorKind := none,
    initialUptimeRaw := none,
    readings := fun _ => { present := false, avail := false, uptimeVal := none } }

/-- A 5-byte firmware artifact (far below the 300 KB default gate). -/
def c4Artifact : FirmwareArtifact :=
  { manifest := { version := some "1.0.4", channel := some "stable",
                  hwFamily := some "edge101", sha256 := some "00", esphomeMin := none },
    firmwareData := [0, 0, 0, 0, 0] }

/-- Witness for C4: a 5-byte binary against the default 300 KB gate. -/
theorem size_gate_before_verify_witness :
    (flashAfterDownload { } trivialAfterEnv "sph10k_haus_03" c4Artifact).2 =
      .error (.valueError (sizeGateMsg c4Artifact.firmwareData.length
        (({ } : FlashCfg).minSizeKb * 1024) ({ } : FlashCfg).minSizeKb)) ∧
    FlashEv.callVerify ∉ (flashAfterDownload { } trivialAfterEnv "sph10k_haus_03" c4Artifact).1 :=
  have h := size_gate_before_verify { } trivialAfterEnv "sph10k_haus_03" c4Artifact
    (by norm_num [c4Artifact])
  ⟨h.1, h.2.2.1⟩

/-- C9: once `ota_upload` has returned successfully, the pipeline always
emits the `complete`/100 stage event last and returns the success
record, for every postcheck behaviour — any monitor kind, any reading
sequence, or no monitoring signal at all. -/
theorem upload_success_reaches_complete (cfg : FlashCfg) (env : AfterEnv)
    (deviceId ip : String) (artifact : FirmwareArtifact)
    (hsize : cfg.minSizeKb * 1024 ≤ artifact.firmwareData.length)
    (hread : env.verifyReadOk = true)
    (hsha : sha256Hex artifact.firmwareData = artifact.manifest.sha256Get)
    (hip : env.deviceIp = some ip)
    (hupload : env.uploadOutcome = .ok ()) :
    (flashAfterDownload cfg env deviceId artifact).2 =
      .ok { result := "success", deviceId := deviceId,
            firmwareVersion := artifact.manifest.versionGet,
            flashDurationSec := 0, stage := "complete" } ∧
    (flashAfterDownload cfg env deviceId artifact).1.getLast? =
      some (.ev { stage := "complete", progress := 100,
                  version := some artifact.manifest.versionGet, error := none }) := by
  have hns : ¬(artifact.firmwareData.length < cfg.minSizeKb * 1024) := not_lt.mpr hsize
  have hv : verifyArtifact env.verifyReadOk env.verifyReadErrMsg artifact = .ok true := by
    simp [verifyArtifact, hread, hsha]
  unfold flashAfterDownload
  rw [if_neg hns, hv, hip, hupload]
  exact ⟨rfl, List.getLast?_concat _⟩

/-- A 1-byte artifact whose manifest checksum matches its contents. -/
def c9Artifact : FirmwareArtifact :=
  { manifest := { version := some "1.0.4", channel := some "stable",
                  hwFamily := some "edge101", sha256 := some (sha256Hex [7]),
                  esphomeMin := none },
    firmwareData := [7] }

/-- A minimum-size configuration of zero, so the 1-byte witness artifact
passes the gate. -/
def c9Cfg : FlashCfg := { hwFamily := "edge101", channel := "stable", minSizeKb := 0 }

/-- Environment for the C9 witness: resolvable IP, successful upload,
no monitoring sensor found. -/
def c9Env : AfterEnv :=
  { trivialAfterEnv with deviceIp := some "192.168.1.50" }

/-- Witness for C9 at a concrete environment. -/
theorem upload_success_reaches_complete_witness :
    (flashAfterDownload c9Cfg c9Env "sph10k_haus_03" c9Artifact).2 =
      .ok { result := "success", deviceId := "sph10k_haus_03",
            firmwareVersion := c9Artifact.manifest.versionGet,
            flashDurationSec := 0, stage := "complete" } ∧
    (flashAfterDownload c9Cfg c9Env "sph10k_haus_03" c9Artifact).1.getLast? =
      some (.ev { stage := "complete", progress := 100,
                  version := some c9Artifact.manifest.versionGet, error := none }) :=
  upload_success_reaches_complete c9Cfg c9Env "sph10k_haus_03" "192.168.1.50" c9Artifact
    (by norm_num [c9Cfg]) rfl rfl rfl rfl

/-! ## C1: the hardware-family-mismatch flash scenario -/

/-- Downloaded-manifest environment for the C1 scenario: the manifest
declares `hw_family = "edge101"`. -/
def c1DownloadEnv : DownloadEnv :=
  { netErr := none, manifestStatus := 200, manifestReason := "OK",
    manifestJson := .ok { version := some "1.0.4", channel := some "stable",
                          hwFamily := some "edge101", sha256 := some "00",
                          esphomeMin := none },
    firmwareStatus := 200, firmwareReason := "OK", firmwareData := [0] }

/-- Whole-pipeline environment for the C1 scenario: guards pass, the
artifact host would serve the edge101 manifest. -/
def c1FlashEnv : FlashEnv :=
  { guardOutcome := .ok (true, "", "Flash guards passed"),
    download := c1DownloadEnv,
    after := trivialAfterEnv }

/-- Configuration requesting hardware family `"edge201"`. -/
def c1Cfg : FlashCfg := { hwFamily := "edge201", channel := "stable", minSizeKb := 300 }

/-- C1 (code bug): with the request for `"edge201"` and a manifest that
declares `"edge101"`, `_execute_flash` as written aborts at the download
stage with a `TypeError` — the `download_artifact(...)` call passes the
keyword arguments `owner=`/`repo=`, which the actual signature of
`artifacts.download_artifact` does not accept — so the hardware-family
check inside `download_artifact` never runs and no `ArtifactError` is
raised; the outer handler still emits a `failed`/0 stage event, and
`ota_upload` is never invoked.  Had the call bound,
`downloadArtifact` itself would have raised the mismatch
`ArtifactError`, as the last conjunct shows. -/
theorem hw_mismatch_flash_aborts_via_kwargs_slip :
    (executeFlash c1Cfg c1FlashEnv "edge201_unit_07").2 =
      .error (.typeError downloadCallTypeErrorMsg) ∧
    (∀ m, (executeFlash c1Cfg c1FlashEnv "edge201_unit_07").2 ≠ .error (.artifactError m)) ∧
    (executeFlash c1Cfg c1FlashEnv "edge201_unit_07").1 =
      [.ev { stage := "init", progress := 0, version := none, error := none },
       .ev { stage := "preflight", progress := 10, version := none, error := none },
       .ev { stage := "download", progress := 30, version := none, error := none },
       .ev { stage := "failed", progress := 0, version := none,
             error := some downloadCallTypeErrorMsg }] ∧
    FlashEv.callUpload ∉ (executeFlash c1Cfg c1FlashEnv "edge201_unit_07").1 ∧
    kwargsBind downloadArtifactParams executeFlashDownloadCallKwargs = false ∧
    downloadArtifact "1.0.4" "edge201" c1DownloadEnv =
      .error (.artifactError ("Hardware family mismatch: expected \x27edge201\x27, " ++
        "manifest declares \x27edge101\x27")) := by
  have h2 : (executeFlash c1Cfg c1FlashEnv "edge201_unit_07").2 =
      .error (.typeError downloadCallTypeErrorMsg) := by rfl
  refine ⟨h2, fun m h => ?_, by rfl, by decide, by rfl, by rfl⟩
  rw [h2] at h
  simp at h

/-! ## C6 / C8: OTA engine dataflow -/

/-- Splitting into chunks and re-concatenating restores the payload. -/
theorem chunksOf_flatten (k : Nat) (l : List α) : (chunksOf k l).flatten = l := by
  have H : ∀ (n : Nat) (l : List α), l.length = n → (chunksOf k l).flatten = l := by
    intro n
    induction n using Nat.strong_induction_on with
    | _ n ih =>
      intro l hn
      match l with
      | [] => simp [chunksOf]
      | x :: xs =>
        rw [chunksOf]
        by_cases hk : k = 0
        · simp [hk]
        · rw [if_neg hk]
          simp only [List.flatten_cons]
          rw [ih ((x :: xs).drop k).length (by subst hn; simp [List.length_drop]; omega) _ rfl]
          exact List.take_append_drop k (x :: xs)
  exact H l.length l rfl

/-- `sentOf` distributes over transcript concatenation. -/
theorem sentOf_append (a b : List OtaMsg) : sentOf (a ++ b) = sentOf a ++ sentOf b := by
  simp [sentOf, List.filterMap_append]

theorem sentOf_nil : sentOf [] = [] := rfl

theorem sentOf_cons_sent (d : List Nat) (t : List OtaMsg) :
    sentOf (OtaMsg.sent d :: t) = d :: sentOf t := by
  simp [sentOf]

theorem sentOf_cons_recvd (n : Nat) (s : String) (t : List OtaMsg) :
    sentOf (OtaMsg.recvd n s :: t) = sentOf t := by
  simp [sentOf]

theorem sentOf_cons_prog (p : Nat) (t : List OtaMsg) :
    sentOf (OtaMsg.prog p :: t) = sentOf t := by
  simp [sentOf]

/-- With every chunk acknowledged by `RESPONSE_CHUNK_OK`, the transfer
loop succeeds and the byte strings it writes are exactly the
`UPLOAD_BLOCK_SIZE` chunks of the remaining payload. -/
theorem otaChunkLoop_sent (env : OtaEnv) (uploadSize : Nat)
    (hack : ∀ j, env.chunkAck j = RESPONSE_CHUNK_OK) (data : List Nat)
    (i offset : Nat) (lastPct : Int) :
    (otaChunkLoop env uploadSize data i offset lastPct).2 = .ok () ∧
    sentOf (otaChunkLoop env uploadSize data i offset lastPct).1 =
      chunksOf UPLOAD_BLOCK_SIZE data := by
  have H : ∀ (n : Nat) (data : List Nat) (i offset : Nat) (lastPct : Int),
      data.length = n →
      (otaChunkLoop env uploadSize data i offset lastPct).2 = .ok () ∧
      sentOf (otaChunkLoop env uploadSize data i offset lastPct).1 =
        chunksOf UPLOAD_BLOCK_SIZE data := by
    intro n
    induction n using Nat.strong_induction_on with
    | _ n ih =>
      intro data i offset lastPct hn
      match data with
      | [] => simp [otaChunkLoop, chunksOf, sentOf]
      | x :: xs =>
        have hchk : checkResponse [env.chunkAck i] (some [RESPONSE_CHUNK_OK])
            ("chunk@" ++ toString (offset + ((x :: xs).take UPLOAD_BLOCK_SIZE).length)) =
            .ok () := by
          rw [hack i]
          rfl
        have hlen : ((x :: xs).drop UPLOAD_BLOCK_SIZE).length < n := by
          subst hn
          simp [List.length_drop, UPLOAD_BLOCK_SIZE]
          omega
        have hrec1 : ∀ (a b : Nat) (c : Int),
            (otaChunkLoop env uploadSize ((x :: xs).drop UPLOAD_BLOCK_SIZE) a b c).2 = .ok () :=
          fun a b c => (ih _ hlen ((x :: xs).drop UPLOAD_BLOCK_SIZE) a b c rfl).1
        have hrec2 : ∀ (a b : Nat) (c : Int),
            sentOf (otaChunkLoop env uploadSize ((x :: xs).drop UPLOAD_BLOCK_SIZE) a b c).1 =
              chunksOf UPLOAD_BLOCK_SIZE ((x :: xs).drop UPLOAD_BLOCK_SIZE) :=
          fun a b c => (ih _ hlen ((x :: xs).drop UPLOAD_BLOCK_SIZE) a b c rfl).2
        have hch : chunksOf UPLOAD_BLOCK_SIZE (x :: xs) =
            (x :: xs).take UPLOAD_BLOCK_SIZE ::
              chunksOf UPLOAD_BLOCK_SIZE ((x :: xs).drop UPLOAD_BLOCK_SIZE) := by
          rw [chunksOf, if_neg (by norm_num [UPLOAD_BLOCK_SIZE])]
        rw [otaChunkLoop, hchk, hch]
        split
        · rename_i e heq
          exact absurd heq (by simp)
        · dsimp only
          split
          · exact ⟨hrec1 _ _ _, by
              simp [sentOf_append, sentOf_cons_sent, sentOf_cons_recvd, sentOf_cons_prog,
                sentOf_nil, hrec2]⟩
          · exact ⟨hrec1 _ _ _, by
              simp [sentOf_append, sentOf_cons_sent, sentOf_cons_recvd, sentOf_cons_prog,
                sentOf_nil, hrec2]⟩
  exact H data.length data i offset lastPct rfl

/-- C6: after feature negotiation, the payload of every subsequent step
is the gzip-compressed image iff the feature-response byte equals
`RESPONSE_SUPPORTS_COMPRESSION` (0x46), and otherwise the raw file
contents; the size field sent is the 4-byte big-endian encoding of that
final payload's length, the MD5 field is computed over that payload, and
the chunked transfer sends exactly that payload. -/
theorem compression_and_size_dataflow (gzipCompress9 md5HexAscii : List Nat → List Nat)
    (password : Option (List Nat)) (fileContents : List Nat) (env : OtaEnv)
    (hne : fileContents ≠ [])
    (hconn : env.connectOk = true)
    (hver : env.versionResp = [0x00, 0x02])
    (hauth : env.authType = RESPONSE_AUTH_OK)
    (hprep : env.prepResp = RESPONSE_UPDATE_PREPARE_OK)
    (hmd5 : env.md5Resp = RESPONSE_BIN_MD5_OK)
    (hack : ∀ j, env.chunkAck j = RESPONSE_CHUNK_OK)
    (hrecv : env.recvResp = RESPONSE_RECEIVE_OK)
    (hend : env.endResp = RESPONSE_UPDATE_END_OK)
    (hsz : (otaPayload gzipCompress9 fileContents env).length < 2 ^ 32) :
    ((env.featuresResp = RESPONSE_SUPPORTS_COMPRESSION →
        otaPayload gzipCompress9 fileContents env = gzipCompress9 fileContents) ∧
     (env.featuresResp ≠ RESPONSE_SUPPORTS_COMPRESSION →
        otaPayload gzipCompress9 fileContents env = fileContents)) ∧
    (otaUpload gzipCompress9 md5HexAscii password fileContents env).2 = .ok () ∧
    sentOf (otaUpload gzipCompress9 md5HexAscii password fileContents env).1 =
      [MAGIC_BYTES, [FEATURE_SUPPORTS_COMPRESSION ||| FEATURE_SUPPORTS_SHA256_AUTH],
       beBytes 4 (otaPayload gzipCompress9 fileContents env).length,
       md5HexAscii (otaPayload gzipCompress9 fileContents env)] ++
      chunksOf UPLOAD_BLOCK_SIZE (otaPayload gzipCompress9 fileContents env) ++
      [[RESPONSE_OK]] ∧
    (chunksOf UPLOAD_BLOCK_SIZE (otaPayload gzipCompress9 fileContents env)).flatten =
      otaPayload gzipCompress9 fileContents env := by
  have hne' : fileContents.length ≠ 0 := fun h => hne (List.eq_nil_of_length_eq_zero h)
  refine ⟨⟨fun h => by simp [otaPayload, h], fun h => by simp [otaPayload, h]⟩, ?_⟩
  obtain ⟨connectOk, cErr, vResp, fResp, aType, dNonce, aRResp, pResp, mResp, cAck,
    rResp, eResp, cNonce⟩ := env
  simp only at hconn hver hauth hprep hmd5 hrecv hend hack hsz ⊢
  subst hconn hver hauth hprep hmd5 hrecv hend
  have hloop := otaChunkLoop_sent
    ⟨true, cErr, [0x00, 0x02], fResp, RESPONSE_AUTH_OK, dNonce, aRResp,
     RESPONSE_UPDATE_PREPARE_OK, RESPONSE_BIN_MD5_OK, cAck, RESPONSE_RECEIVE_OK,
     RESPONSE_UPDATE_END_OK, cNonce⟩
    (otaPayload gzipCompress9 fileContents
      ⟨true, cErr, [0x00, 0x02], fResp, RESPONSE_AUTH_OK, dNonce, aRResp,
       RESPONSE_UPDATE_PREPARE_OK, RESPONSE_BIN_MD5_OK, cAck, RESPONSE_RECEIVE_OK,
       RESPONSE_UPDATE_END_OK, cNonce⟩).length
    hack
    (otaPayload gzipCompress9 fileContents
      ⟨true, cErr, [0x00, 0x02], fResp, RESPONSE_AUTH_OK, dNonce, aRResp,
       RESPONSE_UPDATE_PREPARE_OK, RESPONSE_BIN_MD5_OK, cAck, RESPONSE_RECEIVE_OK,
       RESPONSE_UPDATE_END_OK, cNonce⟩)
    0 0 (-1)
  have hsz' : ¬(2 ^ 32 ≤ (otaPayload gzipCompress9 fileContents
      ⟨true, cErr, [0x00, 0x02], fResp, RESPONSE_AUTH_OK, dNonce, aRResp,
       RESPONSE_UPDATE_PREPARE_OK, RESPONSE_BIN_MD5_OK, cAck, RESPONSE_RECEIVE_OK,
       RESPONSE_UPDATE_END_OK, cNonce⟩).length) := not_le.mpr hsz
  simp only [otaUpload, otaPayload] at hloop hsz' ⊢
  rw [if_neg (by simp [hne']), if_neg (by simp)]
  simp only [show checkResponse (List.take 1 [0x00, 0x02]) (some [RESPONSE_OK])
      "magic response" = .ok () from rfl]
  rw [show ([0x00, 0x02] : List Nat).getD 1 0 = 2 from rfl]
  rw [if_neg (by norm_num [OTA_VERSION_2_0])]
  simp only [if_pos rfl, if_neg hsz',
    show checkResponse [RESPONSE_UPDATE_PREPARE_OK] (some [RESPONSE_UPDATE_PREPARE_OK])
      "update prepare" = .ok () from rfl,
    show checkResponse [RESPONSE_BIN_MD5_OK] (some [RESPONSE_BIN_MD5_OK]) "binary MD5 check" =
      .ok () from rfl,
    show checkResponse [RESPONSE_RECEIVE_OK] (some [RESPONSE_RECEIVE_OK]) "receive complete" =
      .ok () from rfl,
    show checkResponse [RESPONSE_UPDATE_END_OK] (some [RESPONSE_UPDATE_END_OK]) "update end" =
      .ok () from rfl]
  rw [hloop.1]
  refine ⟨rfl, ?_, chunksOf_flatten _ _⟩
  simp [sentOf_append, sentOf_cons_sent, sentOf_cons_recvd, sentOf_cons_prog, sentOf_nil,
    hloop.2]

/-- Device environment for the C6 witness: version 2.0, compression
accepted, no auth, every acknowledgement positive. -/
def c6Env : OtaEnv :=
  { connectOk := true, connectErrMsg := "", versionResp := [0x00, 0x02],
    featuresResp := RESPONSE_SUPPORTS_COMPRESSION, authType := RESPONSE_AUTH_OK,
    deviceNonce := [], authResultResp := RESPONSE_AUTH_OK,
    prepResp := RESPONSE_UPDATE_PREPARE_OK, md5Resp := RESPONSE_BIN_MD5_OK,
    chunkAck := fun _ => RESPONSE_CHUNK_OK, recvResp := RESPONSE_RECEIVE_OK,
    endResp := RESPONSE_UPDATE_END_OK, clientNonce := [] }

/-- Stand-in byte-level compressor for the C6 witness. -/
def c6Gzip : List Nat → List Nat := fun l => 0x1F :: l

/-- Stand-in MD5-hex-ASCII function for the C6 witness. -/
def c6Md5 : List Nat → List Nat := fun _ => [97, 98]

/-- Witness for C6 at a concrete run with compression accepted. -/
theorem compression_and_size_dataflow_witness :
    (otaUpload c6Gzip c6Md5 none [1, 2, 3] c6Env).2 = .ok () ∧
    sentOf (otaUpload c6Gzip c6Md5 none [1, 2, 3] c6Env).1 =
      [MAGIC_BYTES, [FEATURE_SUPPORTS_COMPRESSION ||| FEATURE_SUPPORTS_SHA256_AUTH],
       beBytes 4 (otaPayload c6Gzip [1, 2, 3] c6Env).length,
       c6Md5 (otaPayload c6Gzip [1, 2, 3] c6Env)] ++
      chunksOf UPLOAD_BLOCK_SIZE (otaPayload c6Gzip [1, 2, 3] c6Env) ++ [[RESPONSE_OK]] ∧
    otaPayload c6Gzip [1, 2, 3] c6Env = c6Gzip [1, 2, 3] :=
  have h := compression_and_size_dataflow c6Gzip c6Md5 none [1, 2, 3] c6Env
    (by simp) rfl rfl rfl rfl rfl (fun _ => rfl) rfl rfl (by decide)
  ⟨h.2.1, h.2.2.1, h.1.1 rfl⟩

/-- C8: when the device selects the legacy MD5 auth mode (0x01),
`ota_upload` raises the refusal `OTAError` at once: the transcript stops
at the auth-type read — no device nonce is read, no client nonce or
digest is sent, and the only bytes ever written are the magic sequence
and the feature byte (no payload). -/
theorem md5_auth_refused (gzipCompress9 md5HexAscii : List Nat → List Nat)
    (password : Option (List Nat)) (fileContents : List Nat) (env : OtaEnv)
    (hne : fileContents ≠ [])
    (hconn : env.connectOk = true)
    (hver : env.versionResp = [0x00, 0x02])
    (hauth : env.authType = RESPONSE_REQUEST_AUTH) :
    (otaUpload gzipCompress9 md5HexAscii password fileContents env).2 =
      .error (.otaError "Device requested MD5 auth — refused (SHA256 required per policy)") ∧
    (otaUpload gzipCompress9 md5HexAscii password fileContents env).1 =
      [OtaMsg.sent MAGIC_BYTES, OtaMsg.recvd 2 "version",
       OtaMsg.sent [FEATURE_SUPPORTS_COMPRESSION ||| FEATURE_SUPPORTS_SHA256_AUTH],
       OtaMsg.recvd 1 "features", OtaMsg.recvd 1 "auth type"] ∧
    OtaMsg.recvd 64 "SHA256 nonce" ∉ (otaUpload gzipCompress9 md5HexAscii password fileContents env).1 ∧
    (∀ d, OtaMsg.sent d ∈ (otaUpload gzipCompress9 md5HexAscii password fileContents env).1 →
      d = MAGIC_BYTES ∨ d = [FEATURE_SUPPORTS_COMPRESSION ||| FEATURE_SUPPORTS_SHA256_AUTH]) := by
  have hne' : fileContents.length ≠ 0 := fun h => hne (List.eq_nil_of_length_eq_zero h)
  have hres : (otaUpload gzipCompress9 md5HexAscii password fileContents env).2 =
      .error (.otaError "Device requested MD5 auth — refused (SHA256 required per policy)") := by
    unfold otaUpload
    simp only [hconn, hver, hauth]
    rw [if_neg (by simp [hne']), if_neg (by simp)]
    rfl
  have htrace : (otaUpload gzipCompress9 md5HexAscii password fileContents env).1 =
      [OtaMsg.sent MAGIC_BYTES, OtaMsg.recvd 2 "version",
       OtaMsg.sent [FEATURE_SUPPORTS_COMPRESSION ||| FEATURE_SUPPORTS_SHA256_AUTH],
       OtaMsg.recvd 1 "features", OtaMsg.recvd 1 "auth type"] := by
    unfold otaUpload
    simp only [hconn, hver, hauth]
    rw [if_neg (by simp [hne']), if_neg (by simp)]
    rfl
  refine ⟨hres, htrace, ?_, ?_⟩
  · rw [htrace]
    decide
  · intro d hd
    rw [htrace] at hd
    simp at hd
    tauto

/-- Device environment for the C8 witness: the device requests legacy
MD5 auth. -/
def c8Env : OtaEnv :=
  { c6Env with authType := RESPONSE_REQUEST_AUTH }

/-- Witness for C8 at a concrete run. -/
theorem md5_auth_refused_witness :
    (otaUpload c6Gzip c6Md5 (some [112]) [1, 2, 3] c8Env).2 =
      .error (.otaError "Device requested MD5 auth — refused (SHA256 required per policy)") ∧
    OtaMsg.recvd 64 "SHA256 nonce" ∉ (otaUpload c6Gzip c6Md5 (some [112]) [1, 2, 3] c8Env).1 :=
  have h := md5_auth_refused c6Gzip c6Md5 (some [112]) [1, 2, 3] c8Env (by simp) rfl rfl rfl
  ⟨h.1, h.2.2.1⟩

/-! ## C7: the SHA-256 challenge response -/

/-- Every output word of the block compression is a reduced 32-bit
value. -/
theorem shaCompressBlock_mem_lt (h b : List Nat) :
    ∀ w ∈ shaCompressBlock h b, w < 2 ^ 32 := by
  intro w hw
  unfold shaCompressBlock at hw
  simp only [List.mem_map] at hw
  obtain ⟨x, _, rfl⟩ := hw
  exact Nat.mod_lt _ (by norm_num)

theorem shaCompressBlock_length (h b : List Nat) : (shaCompressBlock h b).length = 8 := by
  unfold shaCompressBlock
  rw [List.length_map]
  rfl

/-- The digest state always has 8 words, each below `2 ^ 32`. -/
theorem sha256Words_spec (msg : List Nat) :
    (sha256Words msg).length = 8 ∧ ∀ w ∈ sha256Words msg, w < 2 ^ 32 := by
  have H : ∀ (blocks : List (List Nat)) (h : List Nat),
      h.length = 8 → (∀ w ∈ h, w < 2 ^ 32) →
      (blocks.foldl shaCompressBlock h).length = 8 ∧
        ∀ w ∈ blocks.foldl shaCompressBlock h, w < 2 ^ 32 := by
    intro blocks
    induction blocks with
    | nil => exact fun h hl hw => ⟨hl, hw⟩
    | cons b bs ih =>
      intro h hl hw
      exact ih _ (shaCompressBlock_length _ _) (shaCompressBlock_mem_lt _ _)
  exact H _ shaH0 rfl (by decide)

/-- Base-`B` digit accumulation is bounded by `B ^ length`. -/
theorem foldl_mul_add_lt (B : Nat) :
    ∀ (ws : List Nat) (acc : Nat), (∀ w ∈ ws, w < B) →
      ws.foldl (fun a w => a * B + w) acc < (acc + 1) * B ^ ws.length := by
  intro ws
  induction ws with
  | nil =>
    intro acc _
    simpa using Nat.lt_succ_self acc
  | cons w ws ih =>
    intro acc hw
    simp only [List.foldl_cons, List.length_cons]
    have hwB : w < B := hw w (List.mem_cons_self _ _)
    have h1 : acc * B + w + 1 ≤ (acc + 1) * B := by nlinarith
    calc ws.foldl (fun a w => a * B + w) (acc * B + w)
        < (acc * B + w + 1) * B ^ ws.length :=
          ih (acc * B + w) (fun x hx => hw x (List.mem_cons_of_mem _ hx))
      _ ≤ ((acc + 1) * B) * B ^ ws.length := Nat.mul_le_mul_right _ h1
      _ = (acc + 1) * B ^ (ws.length + 1) := by ring

/-- The SHA-256 digest value is below `2 ^ 256`. -/
theorem sha256Nat_lt (msg : List Nat) : sha256Nat msg < 2 ^ 256 := by
  have hs := sha256Words_spec msg
  have h := foldl_mul_add_lt (2 ^ 32) (sha256Words msg) 0 hs.2
  rw [hs.1] at h
  calc sha256Nat msg < (0 + 1) * (2 ^ 32) ^ 8 := h
    _ = 2 ^ 256 := by norm_num

/-- C7 counterexample: the claim "changing any one of the three inputs
changes the digest" is false as stated — the challenge digest has at
most `2 ^ 256` values while passwords range over all byte strings, so
two distinct passwords collide for some fixed device nonce and client
nonce (pigeonhole; no constructive pair is known, which is exactly why
the code may rely on it in practice). -/
theorem challenge_collision_exists :
    ∃ p₁ p₂ : List Nat, p₁ ≠ p₂ ∧
      computeChallenge p₁ (List.replicate 64 48) (List.replicate 64 49) =
        computeChallenge p₂ (List.replicate 64 48) (List.replicate 64 49) := by
  obtain ⟨p₁, p₂, hne, heq⟩ :=
    Finite.exists_ne_map_eq_of_infinite
      (fun p : List Nat =>
        (⟨sha256Nat (p ++ List.replicate 64 48 ++ List.replicate 64 49),
          sha256Nat_lt _⟩ : Fin (2 ^ 256)))
  refine ⟨p₁, p₂, hne, ?_⟩
  have h : sha256Nat (p₁ ++ List.replicate 64 48 ++ List.replicate 64 49) =
      sha256Nat (p₂ ++ List.replicate 64 48 ++ List.replicate 64 49) :=
    congrArg Fin.val heq
  unfold computeChallenge sha256Hex
  rw [h]

/-- C7 amended: the challenge response is a deterministic function of
the password bytes, device nonce and client nonce — identical inputs
give byte-for-byte identical digests — and with the protocol's 64-byte
nonce fields, changing any one of the three inputs (the other two
fixed, or indeed any combination) changes the byte string fed to
SHA-256. -/
theorem challenge_deterministic_message_injective
    (p₁ n₁ c₁ p₂ n₂ c₂ : List Nat)
    (hn₁ : n₁.length = 64) (hn₂ : n₂.length = 64)
    (hc₁ : c₁.length = 64) (hc₂ : c₂.length = 64) :
    (p₁ = p₂ ∧ n₁ = n₂ ∧ c₁ = c₂ →
      computeChallenge p₁ n₁ c₁ = computeChallenge p₂ n₂ c₂) ∧
    (p₁ ++ n₁ ++ c₁ = p₂ ++ n₂ ++ c₂ → p₁ = p₂ ∧ n₁ = n₂ ∧ c₁ = c₂) := by
  constructor
  · rintro ⟨rfl, rfl, rfl⟩
    rfl
  · intro hmsg
    have hc := List.append_inj' hmsg (by rw [hc₁, hc₂])
    have hpn := List.append_inj' hc.1 (by rw [hn₁, hn₂])
    exact ⟨hpn.1, hpn.2, hc.2⟩

/-- Witness for the amended C7 at concrete inputs: distinct passwords
with fixed 64-byte nonces. -/
theorem challenge_deterministic_message_injective_witness :
    (([1] : List Nat) = [2] ∧ List.replicate 64 48 = List.replicate 64 48 ∧
        List.replicate 64 49 = List.replicate 64 49 →
      computeChallenge [1] (List.replicate 64 48) (List.replicate 64 49) =
        computeChallenge [2] (List.replicate 64 48) (List.replicate 64 49)) ∧
    (([1] : List Nat) ++ List.replicate 64 48 ++ List.replicate 64 49 =
        [2] ++ List.replicate 64 48 ++ List.replicate 64 49 →
      ([1] : List Nat) = [2] ∧ List.replicate 64 48 = List.replicate 64 48 ∧
        List.replicate 64 49 = List.replicate 64 49) :=
  challenge_deterministic_message_injective [1] (List.replicate 64 48) (List.replicate 64 49)
    [2] (List.replicate 64 48) (List.replicate 64 49)
    (by simp) (by simp) (by simp) (by simp)

end PVAutonomyOps
